import Mathlib

/-!
# HomePlate: time synchronisation and watchdog supervision

A shallow embedding of `src/time.cpp` and `src/watchdog.h`.

* Global variables (`ntpSynced`, `rtcSet`, `rtc`, the Inkplate `display`) become fields of
  an explicit `State`, threaded through every function.
* Calls into hardware and FreeRTOS that matter for ordering (`i2cStart`, `vTaskDelay`,
  `display.rtcSetEpoch`, ...) are recorded, in program order, in `State.trace`.
* Functions of external libraries (Timezone, ESP32Time, Inkplate, NTPClient) are not part of
  the repository; they are taken as parameters (`Lib`, and the network as a function from
  the request number to its outcome).
* Diagnostic output (`Serial.printf`, `printDebug`) is not modelled.
* Epochs, `bootCount` and tick counts are natural numbers, `int` and `long` results are
  integers. No arithmetic in these functions leaves the range of its C type on values the
  libraries return (epochs below `2^32`, a raw day of week in 0..6, timezone offsets of a few
  hours), so no wrap-around is modelled.
* `waitForWiFi()` is taken to return.
-/

set_option linter.unusedVariables false

namespace HomePlate

/-! ## Watchdog (`src/watchdog.h`) -/

/-- The two static members of `WatchdogManager`. -/
structure Watchdog where
  initialized : Bool
  enabled : Bool
deriving DecidableEq, Repr

namespace WatchdogManager

/-- Values of the static members before any call (`spec.md` 4.2: default both false). -/
def default : Watchdog := { initialized := false, enabled := false }

/-- Member function `WatchdogManager::init`. `espOk` is whether
`esp_task_wdt_init(timeout_sec, panic_on_timeout)` returned `ESP_OK`; the result is the
returned `bool` and the state afterwards. -/
def init (w : Watchdog) (timeout_sec : Nat) (panic_on_timeout : Bool) (espOk : Bool) :
    Bool × Watchdog :=
  if w.initialized then
    (true, w)
  else if espOk then
    (true, { w with initialized := true, enabled := true })
  else
    (false, w)

/-- Member function `WatchdogManager::subscribe`; `espOk` is whether `esp_task_wdt_add(NULL)`
returned `ESP_OK`. -/
def subscribe (w : Watchdog) (espOk : Bool) : Bool × Watchdog :=
  if !w.initialized then
    (false, w)
  else if espOk then
    (true, w)
  else
    (false, w)

/-- Member function `WatchdogManager::unsubscribe`; `espOk` is whether
`esp_task_wdt_delete(NULL)` returned `ESP_OK`. -/
def unsubscribe (w : Watchdog) (espOk : Bool) : Bool × Watchdog :=
  if !w.initialized then
    (false, w)
  else if espOk then
    (true, w)
  else
    (false, w)

/-- Member function `WatchdogManager::reset`: the result says whether `esp_task_wdt_reset()`
was called. -/
def reset (w : Watchdog) : Bool × Watchdog :=
  if w.initialized && w.enabled then
    (true, w)
  else
    (false, w)

/-- Member function `WatchdogManager::disable`. -/
def disable (w : Watchdog) : Watchdog :=
  if w.initialized then
    { w with enabled := false }
  else
    w

/-- Member function `WatchdogManager::enable`. -/
def enable (w : Watchdog) : Watchdog :=
  if w.initialized then
    { w with enabled := true }
  else
    w

/-- Member function `WatchdogManager::isInitialized`. -/
def isInitialized (w : Watchdog) : Bool := w.initialized

/-- Member function `WatchdogManager::isEnabled`. -/
def isEnabled (w : Watchdog) : Bool := w.enabled

/-- Member function `WatchdogManager::deinit`. -/
def deinit (w : Watchdog) : Watchdog :=
  if w.initialized then
    { w with initialized := false, enabled := false }
  else
    w

/-- One call of a public state-changing member function, together with the outcome of the
underlying ESP-IDF call where there is one. -/
inductive Call where
  | init (timeout_sec : Nat) (panic_on_timeout : Bool) (espOk : Bool)
  | subscribe (espOk : Bool)
  | unsubscribe (espOk : Bool)
  | reset
  | disable
  | enable
  | deinit
deriving DecidableEq, Repr

/-- State after one call. -/
def step (w : Watchdog) : Call → Watchdog
  | .init t p ok => (init w t p ok).2
  | .subscribe ok => (subscribe w ok).2
  | .unsubscribe ok => (unsubscribe w ok).2
  | .reset => (reset w).2
  | .disable => disable w
  | .enable => enable w
  | .deinit => deinit w

/-- State after a finite sequence of calls, first call first. -/
def run (w : Watchdog) (calls : List Call) : Watchdog :=
  calls.foldl step w

end WatchdogManager

/-! ## Time (`src/time.cpp`) -/

/-- Minimum plausible epoch: `#define JAN_1_2000 946684800`. -/
def JAN_1_2000 : Nat := 946684800

/-- The local clock object `ESP32Time rtc`: the seconds it was last set to and its public
`offset` member (read as a signed `long`, as the comment in `ntpSync` says). -/
structure ESP32Time where
  epoch : Nat
  offset : Int
deriving DecidableEq, Repr

/-- The external real-time clock chip reached through `display.rtc*`. -/
structure Inkplate where
  rtcEpoch : Nat
  rtcSetFlag : Bool
deriving DecidableEq, Repr

/-- Functions of libraries that are not part of the repository. -/
structure Lib where
  /-- Library call `tz.toLocal(epoch, &tcr)` of the configured `Timezone tz`. -/
  toLocal : Int → Int
  /-- Library call `rtc.getLocalEpoch()`. -/
  getLocalEpoch : ESP32Time → Nat
  /-- Library call `rtc.getDayofWeek()`. -/
  getDayofWeek : ESP32Time → Int
  /-- Library call `rtc.getHour(mode)`. -/
  getHour : ESP32Time → Bool → Int
  /-- Library call `rtc.getMinute()`. -/
  getMinute : ESP32Time → Int
  /-- Library call `display.rtcSetEpoch(e)`: the chip after the write (which may fail silently). -/
  rtcSetEpoch : Inkplate → Nat → Inkplate

/-- Hardware and scheduler calls, in the order the program makes them. -/
inductive Ev where
  | waitForWiFi
  | forceUpdate (attempt : Nat) (ok : Bool)
  | vTaskDelay (ticks : Nat)
  | i2cStart
  | i2cEnd
  | rtcIsSet
  | rtcGetEpoch
  | rtcSetEpoch (e : Nat)
  | setTime (e : Nat)
  | setNtpSynced
  | setOffset (o : Int)
  | xTaskCreate
  | vTaskDelete
deriving DecidableEq, Repr

/-- The globals of `time.cpp` and the devices they talk to. -/
structure State where
  ntpSynced : Bool
  rtcSet : Bool
  rtc : ESP32Time
  display : Inkplate
  trace : List Ev
deriving DecidableEq, Repr

/-- Append one call to the trace. -/
def State.emit (s : State) (e : Ev) : State :=
  { s with trace := s.trace ++ [e] }

/-- Function `long tzOffset(time_t epoch)`: `tz.toLocal(epoch) - epoch`. -/
def tzOffset (lib : Lib) (epoch : Int) : Int :=
  let localT := lib.toLocal epoch
  localT - epoch

/-- Function `int getDayOfWeek(bool weekStartsOnMonday)`. -/
def getDayOfWeek (lib : Lib) (s : State) (weekStartsOnMonday : Bool) : Int :=
  if !s.rtcSet then
    -1
  else
    let dow := lib.getDayofWeek s.rtc
    if weekStartsOnMonday then
      if dow == 0 then 7 else dow
    else
      dow + 1

/-- Function `int getHour()`. -/
def getHour (lib : Lib) (s : State) : Int :=
  if !s.rtcSet then
    -1
  else
    lib.getHour s.rtc true

/-- Function `int getMinute()`. -/
def getMinute (lib : Lib) (s : State) : Int :=
  if !s.rtcSet then
    -1
  else
    lib.getMinute s.rtc

/-- Build-time constants that `time.cpp` takes from headers outside `src/`. -/
structure Config where
  /-- Macro `SECOND` of `homeplate.h`: the number of milliseconds in a second. -/
  SECOND : Nat
  /-- Macro `portTICK_PERIOD_MS` of FreeRTOS: the number of milliseconds in a tick. -/
  portTICK_PERIOD_MS : Nat
  /-- Macro `NTP_SYNC_INTERVAL`: number of boots between forced re-synchronisations. -/
  NTP_SYNC_INTERVAL : Nat
deriving DecidableEq, Repr

/-- The local `NTPClient timeClient` of `ntpSync`: how many requests it has made and the
epoch of its last successful update. -/
structure NTPClient where
  requests : Nat
  epochTime : Nat
deriving DecidableEq, Repr

/-- Library call `timeClient.forceUpdate()`. The network is a function from the number of the
request (0 for the first one of this client) to its outcome: `some e` when the server
answered with epoch `e`, `none` when the request failed. -/
def NTPClient.forceUpdate (net : Nat → Option Nat) (c : NTPClient) : Bool × NTPClient :=
  match net c.requests with
  | some e => (true, { requests := c.requests + 1, epochTime := e })
  | none => (false, { c with requests := c.requests + 1 })

/-- Constant `const int MAX_NTP_RETRIES = 5;` of `ntpSync`. -/
def MAX_NTP_RETRIES : Nat := 5

/-- The statements of `ntpSync` after a successful `forceUpdate` (lines 53 to 87). -/
def ntpCommit (lib : Lib) (timeClient : NTPClient) (s : State) : State :=
  let localTime := lib.getLocalEpoch s.rtc
  let s := s.emit .i2cStart
  let rtcEpoch := s.display.rtcEpoch
  let s := s.emit .rtcGetEpoch
  let ntp_et := timeClient.epochTime
  let s := { s with display := lib.rtcSetEpoch s.display ntp_et }.emit (.rtcSetEpoch ntp_et)
  let s := { s with rtc := { s.rtc with epoch := ntp_et } }.emit (.setTime ntp_et)
  let s := s.emit .i2cEnd
  let s := { s with ntpSynced := true }.emit .setNtpSynced
  let offset := tzOffset lib ntp_et
  let s := { s with rtc := { s.rtc with offset := offset } }.emit (.setOffset offset)
  let s := s.emit .i2cStart
  let s := { s with rtcSet := s.display.rtcSetFlag }.emit .rtcIsSet
  let s := s.emit .i2cEnd
  s

/-- The `while (retryCount < MAX_NTP_RETRIES)` loop of `ntpSync`, entered with the given
`retryCount`. The result is the state when the loop is left and the client at that point. -/
def ntpSyncLoop (lib : Lib) (cfg : Config) (net : Nat → Option Nat)
    (retryCount : Nat) (timeClient : NTPClient) (s : State) : State × NTPClient :=
  if h : retryCount < MAX_NTP_RETRIES then
    let s := s.emit .waitForWiFi
    let r := timeClient.forceUpdate net
    let timeClient := r.2
    let s := s.emit (.forceUpdate (retryCount + 1) r.1)
    if !r.1 then
      let retryCount := retryCount + 1
      if retryCount ≥ MAX_NTP_RETRIES then
        (s, timeClient)
      else
        let s := s.emit (.vTaskDelay ((30 * cfg.SECOND) / cfg.portTICK_PERIOD_MS))
        ntpSyncLoop lib cfg net retryCount timeClient s
    else
      (ntpCommit lib timeClient s, timeClient)
  else
    (s, timeClient)
termination_by MAX_NTP_RETRIES - retryCount
decreasing_by omega

/-- Function `void ntpSync(void *parameter)`: the task body up to and including
`vTaskDelete(NULL)`. -/
def ntpSync (lib : Lib) (cfg : Config) (net : Nat → Option Nat) (s : State) :
    State × NTPClient :=
  let timeClient : NTPClient := { requests := 0, epochTime := 0 }
  let retryCount := 0
  let r := ntpSyncLoop lib cfg net retryCount timeClient s
  (r.1.emit .vTaskDelete, r.2)

/-- The startup check of `setupTimeAndSyncTask` (lines 96 to 110). -/
def startupCheck (lib : Lib) (s : State) : State :=
  let localTime := lib.getLocalEpoch s.rtc
  let s := s.emit .i2cStart
  let s := { s with rtcSet := s.display.rtcSetFlag }.emit .rtcIsSet
  let s :=
    if s.rtcSet then
      let rtcEpoch := s.display.rtcEpoch
      let s := s.emit .rtcGetEpoch
      let offset := tzOffset lib rtcEpoch
      { s with rtc := { s.rtc with offset := offset } }.emit (.setOffset offset)
    else
      s
  let s := s.emit .i2cEnd
  if s.rtcSet && decide (localTime < JAN_1_2000) then
    { s with rtcSet := false }
  else
    s

/-- The resync decision of `setupTimeAndSyncTask` (lines 114 to 125, compiled with
`NTP_SERVER` defined): the result says whether `xTaskCreate(ntpSync, ...)` is called. -/
def resyncDecision (cfg : Config) (bootCount : Nat) (sleepBoot : Bool) (s : State) :
    Bool × State :=
  let resync := (bootCount % cfg.NTP_SYNC_INTERVAL) == 0
  if !s.rtcSet || !sleepBoot || resync then
    (true, s.emit .xTaskCreate)
  else
    (false, s)

/-- Function `void setupTimeAndSyncTask()` with `NTP_SERVER` defined. `bootCount` and
`sleepBoot` are the globals of that name; the result says whether the synchronisation task
was created. -/
def setupTimeAndSyncTask (lib : Lib) (cfg : Config) (bootCount : Nat) (sleepBoot : Bool)
    (s : State) : Bool × State :=
  resyncDecision cfg bootCount sleepBoot (startupCheck lib s)

/-! ## Concrete inputs -/

/-- A library instance for concrete runs: a fixed timezone one hour east of UTC, a local clock
that reports the seconds it was set to, and an external chip that takes every write. -/
def demoLib : Lib where
  toLocal := fun e => e + 3600
  getLocalEpoch := fun c => c.epoch
  getDayofWeek := fun c => (((c.epoch / 86400 + 4) % 7 : Nat) : Int)
  getHour := fun c _ => (((c.epoch % 86400) / 3600 : Nat) : Int)
  getMinute := fun c => (((c.epoch % 3600) / 60 : Nat) : Int)
  rtcSetEpoch := fun _ e => { rtcEpoch := e, rtcSetFlag := true }

/-- Constants for concrete runs: 1000 ms per second, 1 ms per tick. -/
def demoConfig (interval : Nat) : Config :=
  { SECOND := 1000, portTICK_PERIOD_MS := 1, NTP_SYNC_INTERVAL := interval }

/-- Power-on state: both clocks at zero, the chip not set. -/
def coldState : State :=
  { ntpSynced := false, rtcSet := false, rtc := { epoch := 0, offset := 0 },
    display := { rtcEpoch := 0, rtcSetFlag := false }, trace := [] }

/-- State on a wake from sleep with both clocks holding 1700000000 (November 2023). -/
def wokenState : State :=
  { ntpSynced := false, rtcSet := false, rtc := { epoch := 1700000000, offset := 0 },
    display := { rtcEpoch := 1700000000, rtcSetFlag := true }, trace := [] }

/-- State on a wake from sleep where the local clock holds 1700000000 and the external chip
reports that it is set but holds epoch 0. -/
def bogusChipState : State :=
  { ntpSynced := false, rtcSet := false, rtc := { epoch := 1700000000, offset := 0 },
    display := { rtcEpoch := 0, rtcSetFlag := true }, trace := [] }

/-- A network whose first `k` requests fail and whose later ones answer `N`. -/
def failsThenAnswers (k N : Nat) : Nat → Option Nat :=
  fun i => if i < k then none else some N

/-- A network on which every request fails. -/
def alwaysFails : Nat → Option Nat :=
  fun _ => none

/-! ## Vocabulary for statements about traces -/

/-- A network-time request. -/
def Ev.isAttempt : Ev → Bool
  | .forceUpdate _ _ => true
  | _ => false

/-- A backoff delay. -/
def Ev.isDelay : Ev → Bool
  | .vTaskDelay _ => true
  | _ => false

/-- A write to the external clock chip. -/
def Ev.isExternalWrite : Ev → Bool
  | .rtcSetEpoch _ => true
  | _ => false

/-- A write to the local clock. -/
def Ev.isLocalWrite : Ev → Bool
  | .setTime _ => true
  | _ => false

/-- Taking or giving the I2C bus lock. -/
def Ev.isLock : Ev → Bool
  | .i2cStart => true
  | .i2cEnd => true
  | _ => false

/-- The calls made by `k` failed attempts in a row, each followed by a delay of `d` ticks,
when the loop is entered with `retryCount = r`. -/
def failedAttempts (d : Nat) (r : Nat) : Nat → List Ev
  | 0 => []
  | k + 1 => [.waitForWiFi, .forceUpdate (r + 1) false, .vTaskDelay d] ++ failedAttempts d (r + 1) k

/-- The calls made by the commit for network epoch `N` and offset `o`. -/
def commitCalls (N : Nat) (o : Int) : List Ev :=
  [.i2cStart, .rtcGetEpoch, .rtcSetEpoch N, .setTime N, .i2cEnd, .setNtpSynced, .setOffset o,
    .i2cStart, .rtcIsSet, .i2cEnd]

/-- The calls of a whole run of `ntpSync` in which `k` attempts fail and attempt `k + 1`
answers `N`: the failed attempts with their delays of `d` ticks, the successful attempt, the
commit, and the self-delete. -/
def successRun (d k N : Nat) (o : Int) : List Ev :=
  failedAttempts d 0 k ++ [.waitForWiFi, .forceUpdate (k + 1) true] ++ commitCalls N o ++
    [.vTaskDelete]

/-- The backoff delay in ticks: `(30 * SECOND) / portTICK_PERIOD_MS`. -/
def Config.backoffTicks (cfg : Config) : Nat :=
  (30 * cfg.SECOND) / cfg.portTICK_PERIOD_MS

/-! ## Lemmas -/

theorem ntpSyncLoop_success (lib : Lib) (cfg : Config) (net : Nat → Option Nat) (N : Nat) :
    ∀ (k r : Nat) (c : NTPClient) (s : State), r + k < MAX_NTP_RETRIES →
      (∀ i, i < k → net (c.requests + i) = none) → net (c.requests + k) = some N →
      ntpSyncLoop lib cfg net r c s =
        (ntpCommit lib { requests := c.requests + k + 1, epochTime := N }
            { s with trace := s.trace ++ (failedAttempts cfg.backoffTicks r k ++
                [.waitForWiFi, .forceUpdate (r + k + 1) true]) },
          { requests := c.requests + k + 1, epochTime := N }) := by
  intro k
  induction k with
  | zero =>
    intro r c s hr _ hok
    rw [ntpSyncLoop]
    simp only [Nat.add_zero] at hok hr
    simp [hr, NTPClient.forceUpdate, hok, State.emit, failedAttempts]
  | succ k ih =>
    intro r c s hr hfail hok
    have h0 : net c.requests = none := by simpa using hfail 0 (Nat.succ_pos k)
    have hr1 : r < MAX_NTP_RETRIES := by omega
    have hr2 : ¬ (r + 1 ≥ MAX_NTP_RETRIES) := by omega
    rw [ntpSyncLoop]
    simp only [hr1, NTPClient.forceUpdate, h0, State.emit]
    simp only [hr2]
    simp
    rw [ih (r + 1) _ _ (by omega)]
    · simp [failedAttempts, Config.backoffTicks, Nat.add_assoc, Nat.add_comm 1 k]
    · intro i hi
      have := hfail (i + 1) (by omega)
      simpa [Nat.add_assoc, Nat.add_comm 1 i] using this
    · simpa [Nat.add_assoc, Nat.add_comm 1 k] using hok

theorem ntpSyncLoop_exhaust (lib : Lib) (cfg : Config) (net : Nat → Option Nat) :
    ∀ (k r : Nat) (c : NTPClient) (s : State), r + k + 1 = MAX_NTP_RETRIES →
      (∀ i, i ≤ k → net (c.requests + i) = none) →
      ntpSyncLoop lib cfg net r c s =
        ({ s with trace := s.trace ++ (failedAttempts cfg.backoffTicks r k ++
                [.waitForWiFi, .forceUpdate (r + k + 1) false]) },
          { c with requests := c.requests + k + 1 }) := by
  intro k
  induction k with
  | zero =>
    intro r c s hr hfail
    have h0 : net c.requests = none := by simpa using hfail 0 (Nat.le_refl 0)
    have hr1 : r < MAX_NTP_RETRIES := by omega
    have hr2 : r + 1 ≥ MAX_NTP_RETRIES := by omega
    rw [ntpSyncLoop]
    simp only [hr1, NTPClient.forceUpdate, h0, State.emit]
    simp [hr2, failedAttempts]
  | succ k ih =>
    intro r c s hr hfail
    have h0 : net c.requests = none := by simpa using hfail 0 (Nat.zero_le _)
    have hr1 : r < MAX_NTP_RETRIES := by omega
    have hr2 : ¬ (r + 1 ≥ MAX_NTP_RETRIES) := by omega
    rw [ntpSyncLoop]
    simp only [hr1, NTPClient.forceUpdate, h0, State.emit]
    simp only [hr2]
    simp
    rw [ih (r + 1) _ _ (by omega)]
    · simp [failedAttempts, Config.backoffTicks, Nat.add_assoc, Nat.add_comm 1 k]
    · intro i hi
      have := hfail (i + 1) (by omega)
      simpa [Nat.add_assoc, Nat.add_comm 1 i] using this

theorem ntpSync_success (lib : Lib) (cfg : Config) (net : Nat → Option Nat) (s : State)
    (k N : Nat) (hk : k ≤ 4) (hfail : ∀ i, i < k → net i = none) (hok : net k = some N) :
    ntpSync lib cfg net s =
      ({ ntpSynced := true
         rtcSet := (lib.rtcSetEpoch s.display N).rtcSetFlag
         rtc := { epoch := N, offset := lib.toLocal N - N }
         display := lib.rtcSetEpoch s.display N
         trace := s.trace ++ successRun cfg.backoffTicks k N (lib.toLocal N - N) },
        { requests := k + 1, epochTime := N }) := by
  unfold ntpSync
  simp only []
  rw [ntpSyncLoop_success lib cfg net N k 0 _ s (by simp [MAX_NTP_RETRIES]; omega)
    (by simpa using hfail) (by simpa using hok)]
  simp [ntpCommit, State.emit, tzOffset, commitCalls, successRun]

theorem ntpSync_exhausted (lib : Lib) (cfg : Config) (net : Nat → Option Nat) (s : State)
    (hfail : ∀ i, i ≤ 4 → net i = none) :
    ntpSync lib cfg net s =
      ({ s with trace := s.trace ++ (failedAttempts cfg.backoffTicks 0 4 ++
           [.waitForWiFi, .forceUpdate 5 false] ++ [.vTaskDelete]) },
        { requests := 5, epochTime := 0 }) := by
  unfold ntpSync
  simp only []
  rw [ntpSyncLoop_exhaust lib cfg net 4 0 _ s (by simp [MAX_NTP_RETRIES])
    (by simpa using hfail)]
  simp [State.emit]

theorem failedAttempts_isAttempt (d : Nat) : ∀ (k r : Nat),
    ((failedAttempts d r k).filter Ev.isAttempt).length = k := by
  intro k
  induction k with
  | zero => intro r; simp [failedAttempts]
  | succ k ih => intro r; simp [failedAttempts, Ev.isAttempt, ih]

theorem failedAttempts_isDelay (d : Nat) : ∀ (k r : Nat),
    (failedAttempts d r k).filter Ev.isDelay = List.replicate k (.vTaskDelay d) := by
  intro k
  induction k with
  | zero => intro r; simp [failedAttempts]
  | succ k ih => intro r; simp [failedAttempts, Ev.isDelay, ih, List.replicate_succ]

theorem failedAttempts_quiet (d : Nat) : ∀ (k r : Nat),
    (failedAttempts d r k).filter
      (fun e => e.isExternalWrite || e.isLocalWrite || e.isLock) = [] := by
  intro k
  induction k with
  | zero => intro r; simp [failedAttempts]
  | succ k ih =>
    intro r
    simp [failedAttempts, Ev.isExternalWrite, Ev.isLocalWrite, Ev.isLock]
    simpa using ih (r + 1)

theorem WatchdogManager.step_invariant (w : Watchdog) (c : WatchdogManager.Call)
    (h : (!w.enabled || w.initialized) = true) :
    (!(WatchdogManager.step w c).enabled || (WatchdogManager.step w c).initialized) = true := by
  obtain ⟨i, e⟩ := w
  cases c <;> cases i <;> cases e <;>
    simp_all [WatchdogManager.step, WatchdogManager.init, WatchdogManager.subscribe,
      WatchdogManager.unsubscribe, WatchdogManager.reset, WatchdogManager.disable,
      WatchdogManager.enable, WatchdogManager.deinit] <;>
    split <;> simp

theorem WatchdogManager.run_invariant (calls : List WatchdogManager.Call) :
    ∀ w : Watchdog, (!w.enabled || w.initialized) = true →
      (!(WatchdogManager.run w calls).enabled || (WatchdogManager.run w calls).initialized)
        = true := by
  induction calls with
  | nil => intro w h; simpa [WatchdogManager.run] using h
  | cons c cs ih =>
    intro w h
    have := ih (WatchdogManager.step w c) (WatchdogManager.step_invariant w c h)
    simpa [WatchdogManager.run] using this

theorem startupCheck_rtcSet (lib : Lib) (s : State) :
    (startupCheck lib s).rtcSet
      = (s.display.rtcSetFlag && decide (JAN_1_2000 ≤ lib.getLocalEpoch s.rtc)) := by
  unfold startupCheck
  cases hf : s.display.rtcSetFlag <;>
    by_cases hl : lib.getLocalEpoch s.rtc < JAN_1_2000 <;>
    simp [State.emit, hf, hl]
  omega

/-! ## The claims -/

/-- Claim C1: whenever `rtcSet` is false, `getDayOfWeek` (for either flag), `getHour` and
`getMinute` return exactly -1, whatever the local clock holds and whatever the clock library
would report. -/
theorem getters_minus_one_when_unset (lib : Lib) (s : State) (weekStartsOnMonday : Bool)
    (h : s.rtcSet = false) :
    getDayOfWeek lib s weekStartsOnMonday = -1 ∧ getHour lib s = -1 ∧ getMinute lib s = -1 := by
  simp [getDayOfWeek, getHour, getMinute, h]

theorem getters_minus_one_when_unset_witness :
    getDayOfWeek demoLib coldState true = -1 ∧ getHour demoLib coldState = -1 ∧
      getMinute demoLib coldState = -1 :=
  getters_minus_one_when_unset demoLib coldState true rfl

/-- Claim C2: with a positive sync interval, `setupTimeAndSyncTask` creates the
synchronisation task if and only if `rtcSet` is false after the startup check, or the boot is
not a wake from sleep, or `bootCount` modulo the interval is 0; the task creation is the only
thing the decision adds to the state, and nothing is added when no condition holds. With
`bootCount = 10` and interval 10 the task is created on a wake from sleep whatever `rtcSet`
is. -/
theorem setupTimeAndSyncTask_spawns_iff (lib : Lib) (cfg : Config) (bootCount : Nat)
    (sleepBoot : Bool) (s : State) (hpos : 0 < cfg.NTP_SYNC_INTERVAL) :
    ((setupTimeAndSyncTask lib cfg bootCount sleepBoot s).1 = true ↔
        ((startupCheck lib s).rtcSet = false ∨ sleepBoot = false ∨
          bootCount % cfg.NTP_SYNC_INTERVAL = 0)) ∧
      (setupTimeAndSyncTask lib cfg bootCount sleepBoot s).2 =
        (if (setupTimeAndSyncTask lib cfg bootCount sleepBoot s).1
          then (startupCheck lib s).emit .xTaskCreate else startupCheck lib s) ∧
      (cfg.NTP_SYNC_INTERVAL = 10 → (setupTimeAndSyncTask lib cfg 10 true s).1 = true) := by
  refine ⟨?_, ?_, ?_⟩
  · unfold setupTimeAndSyncTask resyncDecision
    cases (startupCheck lib s).rtcSet <;> cases sleepBoot <;>
      by_cases hm : bootCount % cfg.NTP_SYNC_INTERVAL = 0 <;> simp [hm]
  · unfold setupTimeAndSyncTask resyncDecision
    by_cases hc : (!(startupCheck lib s).rtcSet || !sleepBoot ||
        bootCount % cfg.NTP_SYNC_INTERVAL == 0) = true
    · simp only [hc, if_true]
    · simp only [hc, if_false]
      simp
  · intro h10
    unfold setupTimeAndSyncTask resyncDecision
    simp [h10]

theorem setupTimeAndSyncTask_spawns_iff_witness :
    ((setupTimeAndSyncTask demoLib (demoConfig 10) 10 true wokenState).1 = true ↔
        ((startupCheck demoLib wokenState).rtcSet = false ∨ true = false ∨
          10 % (demoConfig 10).NTP_SYNC_INTERVAL = 0)) ∧
      (setupTimeAndSyncTask demoLib (demoConfig 10) 10 true wokenState).2 =
        (if (setupTimeAndSyncTask demoLib (demoConfig 10) 10 true wokenState).1
          then (startupCheck demoLib wokenState).emit .xTaskCreate
          else startupCheck demoLib wokenState) ∧
      ((demoConfig 10).NTP_SYNC_INTERVAL = 10 →
        (setupTimeAndSyncTask demoLib (demoConfig 10) 10 true wokenState).1 = true) :=
  setupTimeAndSyncTask_spawns_iff demoLib (demoConfig 10) 10 true wokenState (by decide)

/-- Claim C3, refuted as stated: with `bootCount = 10`, interval 5, `rtcSet` true after the
startup check and a wake from sleep, the synchronisation task IS created. -/
theorem resync_boot10_interval5 :
    (startupCheck demoLib wokenState).rtcSet = true ∧
      (setupTimeAndSyncTask demoLib (demoConfig 5) 10 true wokenState).1 = true ∧
      Ev.xTaskCreate ∈
        (setupTimeAndSyncTask demoLib (demoConfig 5) 10 true wokenState).2.trace := by
  decide

/-- Claim C3, amended: with `rtcSet` true after the startup check and a wake from sleep, no
synchronisation task is created exactly when `bootCount` modulo the (positive) interval is
not 0. For interval 5 that makes `bootCount = 10` create the task and `bootCount = 11` not
create it. -/
theorem no_resync_iff_mod_nonzero (lib : Lib) (cfg : Config) (bootCount : Nat) (s : State)
    (hpos : 0 < cfg.NTP_SYNC_INTERVAL) (hset : (startupCheck lib s).rtcSet = true) :
    ((setupTimeAndSyncTask lib cfg bootCount true s).1 = false ↔
        bootCount % cfg.NTP_SYNC_INTERVAL ≠ 0) ∧
      (cfg.NTP_SYNC_INTERVAL = 5 → (setupTimeAndSyncTask lib cfg 10 true s).1 = true) ∧
      (cfg.NTP_SYNC_INTERVAL = 5 → (setupTimeAndSyncTask lib cfg 11 true s).1 = false) := by
  refine ⟨?_, ?_, ?_⟩
  · unfold setupTimeAndSyncTask resyncDecision
    by_cases hm : bootCount % cfg.NTP_SYNC_INTERVAL = 0 <;> simp [hm, hset]
  · intro h5
    unfold setupTimeAndSyncTask resyncDecision
    simp [h5]
  · intro h5
    unfold setupTimeAndSyncTask resyncDecision
    simp [h5, hset]

theorem no_resync_iff_mod_nonzero_witness :
    ((setupTimeAndSyncTask demoLib (demoConfig 5) 11 true wokenState).1 = false ↔
        11 % (demoConfig 5).NTP_SYNC_INTERVAL ≠ 0) ∧
      ((demoConfig 5).NTP_SYNC_INTERVAL = 5 →
        (setupTimeAndSyncTask demoLib (demoConfig 5) 10 true wokenState).1 = true) ∧
      ((demoConfig 5).NTP_SYNC_INTERVAL = 5 →
        (setupTimeAndSyncTask demoLib (demoConfig 5) 11 true wokenState).1 = false) :=
  no_resync_iff_mod_nonzero demoLib (demoConfig 5) 11 wokenState (by decide) (by decide)

/-- Claim C4: when the first `k` requests fail (`k ≤ 4`) and request `k + 1` answers `N`,
`ntpSync` makes exactly `k + 1` requests, the last one being the successful attempt `k + 1`;
it makes exactly `k` backoff delays, each of `(30 * SECOND) / portTICK_PERIOD_MS` ticks, which
is 30 seconds whenever the tick period divides it, one after each failed attempt and none after
the successful one; and it writes the external clock exactly once, with `N`, after attempt
`k + 1`. -/
theorem ntpSync_retries_then_succeeds (lib : Lib) (cfg : Config) (net : Nat → Option Nat)
    (s : State) (k N : Nat) (hk : k ≤ 4) (hfail : ∀ i, i < k → net i = none)
    (hok : net k = some N) :
    (ntpSync lib cfg net s).2.requests = k + 1 ∧
      (ntpSync lib cfg net s).1.trace =
        s.trace ++ successRun cfg.backoffTicks k N (lib.toLocal N - N) ∧
      ((successRun cfg.backoffTicks k N (lib.toLocal N - N)).filter Ev.isAttempt).length
        = k + 1 ∧
      (successRun cfg.backoffTicks k N (lib.toLocal N - N)).filter Ev.isDelay
        = List.replicate k (Ev.vTaskDelay ((30 * cfg.SECOND) / cfg.portTICK_PERIOD_MS)) ∧
      (successRun cfg.backoffTicks k N (lib.toLocal N - N)).filter Ev.isExternalWrite
        = [Ev.rtcSetEpoch N] ∧
      (failedAttempts cfg.backoffTicks 0 k).filter Ev.isExternalWrite = [] ∧
      (cfg.portTICK_PERIOD_MS ∣ 30 * cfg.SECOND →
        (30 * cfg.SECOND) / cfg.portTICK_PERIOD_MS * cfg.portTICK_PERIOD_MS = 30 * cfg.SECOND) := by
  have hq := failedAttempts_quiet cfg.backoffTicks k 0
  have hw : (failedAttempts cfg.backoffTicks 0 k).filter Ev.isExternalWrite = [] := by
    rw [List.filter_eq_nil_iff] at hq ⊢
    intro e he
    have := hq e he
    simp only [Bool.or_eq_true, not_or] at this
    exact this.1.1
  rw [ntpSync_success lib cfg net s k N hk hfail hok]
  refine ⟨rfl, rfl, ?_, ?_, ?_, hw, ?_⟩
  · simp [successRun, List.filter_append, failedAttempts_isAttempt, commitCalls, Ev.isAttempt]
  · simp [successRun, List.filter_append, failedAttempts_isDelay, commitCalls, Ev.isDelay,
      Config.backoffTicks]
  · simp [successRun, List.filter_append, hw, commitCalls, Ev.isExternalWrite]
  · intro hd
    exact Nat.div_mul_cancel hd

theorem ntpSync_retries_then_succeeds_witness :
    (ntpSync demoLib (demoConfig 10) (failsThenAnswers 4 1700000000) coldState).2.requests
        = 4 + 1 ∧
      (ntpSync demoLib (demoConfig 10) (failsThenAnswers 4 1700000000) coldState).1.trace
        = coldState.trace ++ successRun (demoConfig 10).backoffTicks 4 1700000000
            (demoLib.toLocal (1700000000 : Nat) - (1700000000 : Nat)) ∧
      ((successRun (demoConfig 10).backoffTicks 4 1700000000
          (demoLib.toLocal (1700000000 : Nat) - (1700000000 : Nat))).filter Ev.isAttempt).length
        = 4 + 1 ∧
      (successRun (demoConfig 10).backoffTicks 4 1700000000
          (demoLib.toLocal (1700000000 : Nat) - (1700000000 : Nat))).filter Ev.isDelay
        = List.replicate 4
            (Ev.vTaskDelay ((30 * (demoConfig 10).SECOND) / (demoConfig 10).portTICK_PERIOD_MS)) ∧
      (successRun (demoConfig 10).backoffTicks 4 1700000000
          (demoLib.toLocal (1700000000 : Nat) - (1700000000 : Nat))).filter Ev.isExternalWrite
        = [Ev.rtcSetEpoch 1700000000] ∧
      (failedAttempts (demoConfig 10).backoffTicks 0 4).filter Ev.isExternalWrite = [] ∧
      ((demoConfig 10).portTICK_PERIOD_MS ∣ 30 * (demoConfig 10).SECOND →
        (30 * (demoConfig 10).SECOND) / (demoConfig 10).portTICK_PERIOD_MS *
          (demoConfig 10).portTICK_PERIOD_MS = 30 * (demoConfig 10).SECOND) :=
  ntpSync_retries_then_succeeds demoLib (demoConfig 10) (failsThenAnswers 4 1700000000)
    coldState 4 1700000000 (by decide) (by decide) (by decide)

/-- Claim C5: when every request fails, `ntpSync` makes exactly 5 requests, never touches the
bus lock or either clock, and reaches `vTaskDelete` as its last call; on termination the
external clock, the local clock with its timezone offset, `ntpSynced` and `rtcSet` have the
values they had at task start. -/
theorem ntpSync_gives_up_unchanged (lib : Lib) (cfg : Config) (net : Nat → Option Nat)
    (s : State) (hfail : ∀ i, net i = none) :
    (ntpSync lib cfg net s).2.requests = 5 ∧
      (ntpSync lib cfg net s).1.trace = s.trace ++
        [Ev.waitForWiFi, Ev.forceUpdate 1 false,
         Ev.vTaskDelay ((30 * cfg.SECOND) / cfg.portTICK_PERIOD_MS),
         Ev.waitForWiFi, Ev.forceUpdate 2 false,
         Ev.vTaskDelay ((30 * cfg.SECOND) / cfg.portTICK_PERIOD_MS),
         Ev.waitForWiFi, Ev.forceUpdate 3 false,
         Ev.vTaskDelay ((30 * cfg.SECOND) / cfg.portTICK_PERIOD_MS),
         Ev.waitForWiFi, Ev.forceUpdate 4 false,
         Ev.vTaskDelay ((30 * cfg.SECOND) / cfg.portTICK_PERIOD_MS),
         Ev.waitForWiFi, Ev.forceUpdate 5 false, Ev.vTaskDelete] ∧
      (ntpSync lib cfg net s).1.display = s.display ∧
      (ntpSync lib cfg net s).1.rtc = s.rtc ∧
      (ntpSync lib cfg net s).1.rtc.offset = s.rtc.offset ∧
      (ntpSync lib cfg net s).1.ntpSynced = s.ntpSynced ∧
      (ntpSync lib cfg net s).1.rtcSet = s.rtcSet := by
  rw [ntpSync_exhausted lib cfg net s (fun i _ => hfail i)]
  simp [failedAttempts, Config.backoffTicks]

theorem ntpSync_gives_up_unchanged_witness :
    (ntpSync demoLib (demoConfig 10) alwaysFails wokenState).2.requests = 5 ∧
      (ntpSync demoLib (demoConfig 10) alwaysFails wokenState).1.trace = wokenState.trace ++
        [Ev.waitForWiFi, Ev.forceUpdate 1 false,
         Ev.vTaskDelay ((30 * (demoConfig 10).SECOND) / (demoConfig 10).portTICK_PERIOD_MS),
         Ev.waitForWiFi, Ev.forceUpdate 2 false,
         Ev.vTaskDelay ((30 * (demoConfig 10).SECOND) / (demoConfig 10).portTICK_PERIOD_MS),
         Ev.waitForWiFi, Ev.forceUpdate 3 false,
         Ev.vTaskDelay ((30 * (demoConfig 10).SECOND) / (demoConfig 10).portTICK_PERIOD_MS),
         Ev.waitForWiFi, Ev.forceUpdate 4 false,
         Ev.vTaskDelay ((30 * (demoConfig 10).SECOND) / (demoConfig 10).portTICK_PERIOD_MS),
         Ev.waitForWiFi, Ev.forceUpdate 5 false, Ev.vTaskDelete] ∧
      (ntpSync demoLib (demoConfig 10) alwaysFails wokenState).1.display = wokenState.display ∧
      (ntpSync demoLib (demoConfig 10) alwaysFails wokenState).1.rtc = wokenState.rtc ∧
      (ntpSync demoLib (demoConfig 10) alwaysFails wokenState).1.rtc.offset
        = wokenState.rtc.offset ∧
      (ntpSync demoLib (demoConfig 10) alwaysFails wokenState).1.ntpSynced
        = wokenState.ntpSynced ∧
      (ntpSync demoLib (demoConfig 10) alwaysFails wokenState).1.rtcSet = wokenState.rtcSet :=
  ntpSync_gives_up_unchanged demoLib (demoConfig 10) alwaysFails wokenState (fun _ => rfl)

/-- Claim C6, evaluated on a wake from sleep where the local clock holds 1700000000 and the
external chip reports that it is set while holding epoch 0, which is below `JAN_1_2000`:
`rtcSet` is still true when the startup check completes, because the check compares the
local time read at entry, not the epoch read from the chip. -/
theorem startupCheck_bogus_chip_stays_set :
    bogusChipState.display.rtcSetFlag = true ∧
      bogusChipState.display.rtcEpoch < JAN_1_2000 ∧
      (startupCheck demoLib bogusChipState).rtcSet = true := by
  decide

/-- Claim C7: on the first successful fetch in `ntpSync` (after `k ≤ 4` failed requests),
yielding network epoch `N`: the external clock is written with `N` and the local clock is set
to `N`, both between one `i2cStart` and the matching `i2cEnd`, with no lock call and no clock
write before that; then `ntpSynced` becomes true, and then the local clock's offset is set to
`tzOffset(N)`, which is `toLocal(N) - N` and so depends only on the fetched epoch, not on the
local time read before the write. -/
theorem ntpSync_commit (lib : Lib) (cfg : Config) (net : Nat → Option Nat) (s : State)
    (k N : Nat) (hk : k ≤ 4) (hfail : ∀ i, i < k → net i = none) (hok : net k = some N) :
    (ntpSync lib cfg net s).1.display = lib.rtcSetEpoch s.display N ∧
      (ntpSync lib cfg net s).1.rtc.epoch = N ∧
      (ntpSync lib cfg net s).1.ntpSynced = true ∧
      (ntpSync lib cfg net s).1.rtc.offset = tzOffset lib N ∧
      tzOffset lib N = lib.toLocal N - N ∧
      (ntpSync lib cfg net s).1.trace = s.trace ++
        (failedAttempts cfg.backoffTicks 0 k ++ [Ev.waitForWiFi, Ev.forceUpdate (k + 1) true]) ++
        [Ev.i2cStart, Ev.rtcGetEpoch, Ev.rtcSetEpoch N, Ev.setTime N, Ev.i2cEnd] ++
        [Ev.setNtpSynced, Ev.setOffset (tzOffset lib N)] ++
        [Ev.i2cStart, Ev.rtcIsSet, Ev.i2cEnd, Ev.vTaskDelete] ∧
      (failedAttempts cfg.backoffTicks 0 k ++ [Ev.waitForWiFi, Ev.forceUpdate (k + 1) true]).filter
          (fun e => e.isExternalWrite || e.isLocalWrite || e.isLock) = [] := by
  rw [ntpSync_success lib cfg net s k N hk hfail hok]
  refine ⟨rfl, rfl, rfl, rfl, rfl, ?_, ?_⟩
  · simp [successRun, commitCalls, tzOffset]
  · rw [List.filter_append, failedAttempts_quiet]
    simp [Ev.isExternalWrite, Ev.isLocalWrite, Ev.isLock]

theorem ntpSync_commit_witness :
    (ntpSync demoLib (demoConfig 10) (failsThenAnswers 0 1700000000) coldState).1.display
        = demoLib.rtcSetEpoch coldState.display 1700000000 ∧
      (ntpSync demoLib (demoConfig 10) (failsThenAnswers 0 1700000000) coldState).1.rtc.epoch
        = 1700000000 ∧
      (ntpSync demoLib (demoConfig 10) (failsThenAnswers 0 1700000000) coldState).1.ntpSynced
        = true ∧
      (ntpSync demoLib (demoConfig 10) (failsThenAnswers 0 1700000000) coldState).1.rtc.offset
        = tzOffset demoLib (1700000000 : Nat) ∧
      tzOffset demoLib (1700000000 : Nat)
        = demoLib.toLocal (1700000000 : Nat) - (1700000000 : Nat) ∧
      (ntpSync demoLib (demoConfig 10) (failsThenAnswers 0 1700000000) coldState).1.trace
        = coldState.trace ++
        (failedAttempts (demoConfig 10).backoffTicks 0 0 ++
          [Ev.waitForWiFi, Ev.forceUpdate (0 + 1) true]) ++
        [Ev.i2cStart, Ev.rtcGetEpoch, Ev.rtcSetEpoch 1700000000, Ev.setTime 1700000000,
          Ev.i2cEnd] ++
        [Ev.setNtpSynced, Ev.setOffset (tzOffset demoLib (1700000000 : Nat))] ++
        [Ev.i2cStart, Ev.rtcIsSet, Ev.i2cEnd, Ev.vTaskDelete] ∧
      (failedAttempts (demoConfig 10).backoffTicks 0 0 ++
          [Ev.waitForWiFi, Ev.forceUpdate (0 + 1) true]).filter
          (fun e => e.isExternalWrite || e.isLocalWrite || e.isLock) = [] :=
  ntpSync_commit demoLib (demoConfig 10) (failsThenAnswers 0 1700000000) coldState 0 1700000000
    (by decide) (by decide) (by decide)

/-- Claim C8: when `rtcSet` is true and the raw day of week `d` reported by the local clock is
in 0..6, `getDayOfWeek` returns a value in 1..7 for both flag values: 7 for `d = 0` and `d`
otherwise when the week starts on Monday, and `d + 1` when it does not. In each mode two raw
days in 0..6 with the same result are equal, and every value in 1..7 is the result for some
raw day in 0..6. -/
theorem getDayOfWeek_when_set (lib : Lib) (s : State) (d : Int) (hset : s.rtcSet = true)
    (hd : lib.getDayofWeek s.rtc = d) (h0 : 0 ≤ d) (h6 : d ≤ 6) :
    (1 ≤ getDayOfWeek lib s true ∧ getDayOfWeek lib s true ≤ 7) ∧
      (1 ≤ getDayOfWeek lib s false ∧ getDayOfWeek lib s false ≤ 7) ∧
      getDayOfWeek lib s true = (if d = 0 then 7 else d) ∧
      getDayOfWeek lib s false = d + 1 ∧
      (∀ (m : Bool) (lib2 : Lib) (s2 : State), s2.rtcSet = true →
        0 ≤ lib2.getDayofWeek s2.rtc → lib2.getDayofWeek s2.rtc ≤ 6 →
        getDayOfWeek lib2 s2 m = getDayOfWeek lib s m → lib2.getDayofWeek s2.rtc = d) ∧
      (∀ (m : Bool) (v : Int), 1 ≤ v → v ≤ 7 → ∃ d2 : Int, 0 ≤ d2 ∧ d2 ≤ 6 ∧
        ∀ (lib2 : Lib) (s2 : State), s2.rtcSet = true → lib2.getDayofWeek s2.rtc = d2 →
          getDayOfWeek lib2 s2 m = v) := by
  have hT : getDayOfWeek lib s true = (if d = 0 then 7 else d) := by
    simp [getDayOfWeek, hset, hd]
  have hF : getDayOfWeek lib s false = d + 1 := by
    simp [getDayOfWeek, hset, hd]
  refine ⟨?_, ?_, hT, hF, ?_, ?_⟩
  · rw [hT]; split <;> omega
  · rw [hF]; omega
  · intro m lib2 s2 hset2 h20 h26 heq
    cases m
    · rw [hF] at heq
      simp only [getDayOfWeek, hset2] at heq
      simp at heq
      omega
    · rw [hT] at heq
      simp only [getDayOfWeek, hset2] at heq
      simp at heq
      split at heq <;> split at heq <;> omega
  · intro m v hv1 hv7
    cases m
    · refine ⟨v - 1, by omega, by omega, ?_⟩
      intro lib2 s2 hset2 hd2
      simp [getDayOfWeek, hset2, hd2]
    · refine ⟨if v = 7 then 0 else v, by split <;> omega, by split <;> omega, ?_⟩
      intro lib2 s2 hset2 hd2
      by_cases hv : v = 7
      · simp [getDayOfWeek, hset2, hd2, hv]
      · have hv0 : v ≠ 0 := by omega
        simp [getDayOfWeek, hset2, hd2, hv, hv0]

theorem getDayOfWeek_when_set_witness :
    (1 ≤ getDayOfWeek demoLib { wokenState with rtcSet := true } true ∧
        getDayOfWeek demoLib { wokenState with rtcSet := true } true ≤ 7) ∧
      (1 ≤ getDayOfWeek demoLib { wokenState with rtcSet := true } false ∧
        getDayOfWeek demoLib { wokenState with rtcSet := true } false ≤ 7) ∧
      getDayOfWeek demoLib { wokenState with rtcSet := true } true
        = (if (2 : Int) = 0 then 7 else 2) ∧
      getDayOfWeek demoLib { wokenState with rtcSet := true } false = 2 + 1 ∧
      (∀ (m : Bool) (lib2 : Lib) (s2 : State), s2.rtcSet = true →
        0 ≤ lib2.getDayofWeek s2.rtc → lib2.getDayofWeek s2.rtc ≤ 6 →
        getDayOfWeek lib2 s2 m = getDayOfWeek demoLib { wokenState with rtcSet := true } m →
        lib2.getDayofWeek s2.rtc = 2) ∧
      (∀ (m : Bool) (v : Int), 1 ≤ v → v ≤ 7 → ∃ d2 : Int, 0 ≤ d2 ∧ d2 ≤ 6 ∧
        ∀ (lib2 : Lib) (s2 : State), s2.rtcSet = true → lib2.getDayofWeek s2.rtc = d2 →
          getDayOfWeek lib2 s2 m = v) :=
  getDayOfWeek_when_set demoLib { wokenState with rtcSet := true } 2 rfl (by decide)
    (by decide) (by decide)

/-- Claim C9, refuted as stated: after a successful `init` followed by `disable`, the state is
initialized and not enabled; `init` then returns success and leaves `enabled` false. -/
theorem init_success_leaves_disabled :
    WatchdogManager.run WatchdogManager.default
        [WatchdogManager.Call.init 120 true true, WatchdogManager.Call.disable]
      = { initialized := true, enabled := false } ∧
    (WatchdogManager.init { initialized := true, enabled := false } 120 true true).1 = true ∧
    (WatchdogManager.init { initialized := true, enabled := false } 120 true true).2.enabled
      = false := by
  decide

/-- Claim C9, amended: whenever `init` returns success, `initialized` is true afterwards, and
`enabled` is true afterwards if the watchdog was not initialized before the call; if it was
already initialized, the call changes nothing, so `enabled` keeps the value it had. -/
theorem init_success_flags (w : Watchdog) (timeout_sec : Nat) (panic_on_timeout espOk : Bool)
    (h : (WatchdogManager.init w timeout_sec panic_on_timeout espOk).1 = true) :
    (WatchdogManager.init w timeout_sec panic_on_timeout espOk).2.initialized = true ∧
      (WatchdogManager.init w timeout_sec panic_on_timeout espOk).2.enabled
        = (if w.initialized then w.enabled else true) ∧
      (WatchdogManager.init w timeout_sec panic_on_timeout espOk).2
        = (if w.initialized then w else { initialized := true, enabled := true }) := by
  obtain ⟨i, e⟩ := w
  cases i <;> cases espOk <;> simp_all [WatchdogManager.init]

theorem init_success_flags_witness :
    (WatchdogManager.init WatchdogManager.default 120 true true).2.initialized = true ∧
      (WatchdogManager.init WatchdogManager.default 120 true true).2.enabled
        = (if WatchdogManager.default.initialized then WatchdogManager.default.enabled
            else true) ∧
      (WatchdogManager.init WatchdogManager.default 120 true true).2
        = (if WatchdogManager.default.initialized then WatchdogManager.default
            else { initialized := true, enabled := true }) :=
  init_success_flags WatchdogManager.default 120 true true rfl

/-- Claim C10: in every state reached from the default state by a finite sequence of `init`,
`subscribe`, `unsubscribe`, `reset`, `disable`, `enable` and `deinit` calls, with any outcomes
of the underlying timer calls, `enabled` is not true while `initialized` is false, and `deinit`
leaves both `initialized` and `enabled` false. -/
theorem deinit_clears_both_flags (calls : List WatchdogManager.Call) :
    (WatchdogManager.deinit (WatchdogManager.run WatchdogManager.default calls)).initialized
        = false ∧
      (WatchdogManager.deinit (WatchdogManager.run WatchdogManager.default calls)).enabled
        = false ∧
      (!(WatchdogManager.run WatchdogManager.default calls).enabled ||
        (WatchdogManager.run WatchdogManager.default calls).initialized) = true := by
  have hinv := WatchdogManager.run_invariant calls WatchdogManager.default rfl
  refine ⟨?_, ?_, hinv⟩
  · unfold WatchdogManager.deinit
    cases hi : (WatchdogManager.run WatchdogManager.default calls).initialized <;> simp [hi]
  · unfold WatchdogManager.deinit
    cases hi : (WatchdogManager.run WatchdogManager.default calls).initialized <;>
      simp_all

end HomePlate
